import Mathlib

/-!
Shallow embedding of `src/flight/Modules/Sensors/sensors.c` (TauLabs sensors
module): calibration transforms for accelerometer, gyroscope and magnetometer,
the magnetometer offset (bias) estimator, the settings-update callback, and one
iteration of the sensor acquisition loop.

Scalars are modelled by `MFloat`: an exact rational together with a `nan`
marker.  Arithmetic on numbers is exact; any operation touching `nan` yields
`nan`, and division by zero yields `nan` (the one division in the modelled code
is `xy[i] / xy_norm`, which in exact arithmetic is `0/0` whenever the
denominator vanishes, so this matches IEEE behaviour on the reachable inputs).
Transcendental functions (`sqrtf`, `cosf`, `sinf`), the quaternion-to-rotation
conversion `Quaternion2R` and the constant `M_PI` live outside this file's
sources and are passed in as parameters (`ExtFuns`).
-/

/-- Scalar model: an exact rational or the not-a-number marker. -/
inductive MFloat : Type where
  | num (q : ℚ) : MFloat
  | nan : MFloat
deriving DecidableEq, Repr

namespace MFloat

def add : MFloat → MFloat → MFloat
  | num a, num b => num (a + b)
  | _, _ => nan

def sub : MFloat → MFloat → MFloat
  | num a, num b => num (a - b)
  | _, _ => nan

def mul : MFloat → MFloat → MFloat
  | num a, num b => num (a * b)
  | _, _ => nan

def neg : MFloat → MFloat
  | num a => num (-a)
  | nan => nan

/-- Division; division by zero gives `nan` (see module comment). -/
def div : MFloat → MFloat → MFloat
  | num a, num b => if b = 0 then nan else num (a / b)
  | _, _ => nan

instance : Add MFloat := ⟨add⟩
instance : Sub MFloat := ⟨sub⟩
instance : Mul MFloat := ⟨mul⟩
instance : Neg MFloat := ⟨neg⟩
instance : Div MFloat := ⟨div⟩

/-- The C `<` on floats: false whenever either side is NaN. -/
def lt : MFloat → MFloat → Bool
  | num a, num b => decide (a < b)
  | _, _ => false

/-- The C `==` on floats: false whenever either side is NaN, so `feq x x`
is the standard NaN test used by the source's guard. -/
def feq : MFloat → MFloat → Bool
  | num a, num b => decide (a = b)
  | _, _ => false

end MFloat

/-- A 3-vector of scalars (used for raw triples, calibrated outputs,
calibration arrays and the stored `MagBias`). -/
structure V3 where
  x : MFloat
  y : MFloat
  z : MFloat
deriving DecidableEq, Repr

/-- A 3×3 matrix given by rows (the C `float R[3][3]`). -/
structure Mat3 where
  r0 : V3
  r1 : V3
  r2 : V3
deriving DecidableEq, Repr

/-- Modelled from the spec: `rot_mult(R, vec, out, false)` from
`CoordinateConversions.c` (not under `src/`), the matrix-vector product with
the row convention fixed so that rotating by the identity is the identity. -/
def rot_mult (R : Mat3) (v : V3) : V3 :=
  ⟨R.r0.x * v.x + R.r0.y * v.y + R.r0.z * v.z,
   R.r1.x * v.x + R.r1.y * v.y + R.r1.z * v.z,
   R.r2.x * v.x + R.r2.y * v.y + R.r2.z * v.z⟩

/-- Raw accelerometer sample (`struct pios_sensor_accel_data`). -/
structure RawAccel where
  x : MFloat
  y : MFloat
  z : MFloat
  temp : MFloat
deriving DecidableEq, Repr

/-- Raw gyroscope sample (`struct pios_sensor_gyro_data`). -/
structure RawGyro where
  x : MFloat
  y : MFloat
  z : MFloat
  temp : MFloat
deriving DecidableEq, Repr

/-- Raw magnetometer sample (`struct pios_sensor_mag_data`; only x,y,z used). -/
structure RawMag where
  x : MFloat
  y : MFloat
  z : MFloat
deriving DecidableEq, Repr

/-- Published accelerometer record (`AccelsData`). -/
structure AccelsData where
  x : MFloat
  y : MFloat
  z : MFloat
  temperature : MFloat
deriving DecidableEq, Repr

/-- Published gyroscope record (`GyrosData`). -/
structure GyrosData where
  x : MFloat
  y : MFloat
  z : MFloat
  temperature : MFloat
deriving DecidableEq, Repr

/-- The module's cached calibration state: the file-scope statics
`accel_bias`, `accel_scale`, `gyro_scale`, `mag_bias`, `mag_scale`, `Rbs`,
`rotate`, `bias_correct_gyro` and the cached `insSettings.MagBiasNullingRate`. -/
structure CalState where
  accel_bias : V3
  accel_scale : V3
  gyro_scale : V3
  mag_bias : V3
  mag_scale : V3
  Rbs : Mat3
  rotate : Bool
  bias_correct_gyro : Bool
  magBiasNullingRate : MFloat
deriving DecidableEq, Repr

/-- Attitude quaternion `q1..q4` of `AttitudeActualData`. -/
structure Quat where
  q1 : MFloat
  q2 : MFloat
  q3 : MFloat
  q4 : MFloat
deriving DecidableEq, Repr

/-- External read-only UAV objects consumed during a cycle: the dynamic gyro
bias (`GyrosBiasData`), the home-location geomagnetic field `Be`
(`HomeLocationData`), and the current attitude (`AttitudeActualData`). -/
structure SensorEnv where
  gyrosBias : V3
  homeBe : V3
  attQ : Quat
  attYaw : MFloat
deriving DecidableEq, Repr

/-- External functions the source calls but whose bodies are outside this
file's sources: `sqrtf`, `cosf`, `sinf`, the constant `M_PI`, and
`Quaternion2R` from `CoordinateConversions.c`. -/
structure ExtFuns where
  sqrtF : MFloat → MFloat
  cosF : MFloat → MFloat
  sinF : MFloat → MFloat
  piF : MFloat
  quat2R : Quat → Mat3

/-- `update_accels` (sensors.c:219): scale and bias each axis, rotate by `Rbs`
when `rotate` is set, pass the temperature through, publish. -/
def update_accels (cal : CalState) (accels : RawAccel) : AccelsData :=
  let accels_out : V3 :=
    ⟨accels.x * cal.accel_scale.x - cal.accel_bias.x,
     accels.y * cal.accel_scale.y - cal.accel_bias.y,
     accels.z * cal.accel_scale.z - cal.accel_bias.z⟩
  if cal.rotate then
    let r := rot_mult cal.Rbs accels_out
    ⟨r.x, r.y, r.z, accels.temp⟩
  else
    ⟨accels_out.x, accels_out.y, accels_out.z, accels.temp⟩

/-- The scaling and rotation part of `update_gyros` (sensors.c:250-265):
scale each axis (no static bias) and rotate by `Rbs` when `rotate` is set. -/
def gyros_rotated_scaled (cal : CalState) (gyros : RawGyro) : V3 :=
  let gyros_out : V3 :=
    ⟨gyros.x * cal.gyro_scale.x,
     gyros.y * cal.gyro_scale.y,
     gyros.z * cal.gyro_scale.z⟩
  if cal.rotate then rot_mult cal.Rbs gyros_out else gyros_out

/-- `update_gyros` (sensors.c:247): scale and rotate, then subtract the
dynamic gyro bias when `bias_correct_gyro` is enabled; pass the temperature
through. -/
def update_gyros (cal : CalState) (env : SensorEnv) (gyros : RawGyro) : GyrosData :=
  let base : V3 := gyros_rotated_scaled cal gyros
  let corrected : V3 :=
    if cal.bias_correct_gyro then
      ⟨base.x - env.gyrosBias.x, base.y - env.gyrosBias.y, base.z - env.gyrosBias.z⟩
    else base
  ⟨corrected.x, corrected.y, corrected.z, gyros.temp⟩

/-- The three correction components `delta[0..2]` computed by
`magOffsetEstimation` (sensors.c:371-398) from the bias-corrected measurement
`m1` (the measurement after the current bias estimate has been removed). -/
def magDelta (ext : ExtFuns) (cal : CalState) (env : SensorEnv) (m1 : V3) : V3 :=
  let Rxy := ext.sqrtF (env.homeBe.x * env.homeBe.x + env.homeBe.y * env.homeBe.y)
  let Rz := env.homeBe.z
  let rate := cal.magBiasNullingRate
  let R := ext.quat2R env.attQ
  let be0 := R.r0.x * m1.x + R.r1.x * m1.y + R.r2.x * m1.z
  let be1 := R.r0.y * m1.x + R.r1.y * m1.y + R.r2.y * m1.z
  let be2 := R.r0.z * m1.x + R.r1.z * m1.y + R.r2.z * m1.z
  let cy := ext.cosF (env.attYaw * ext.piF / MFloat.num 180)
  let sy := ext.sinF (env.attYaw * ext.piF / MFloat.num 180)
  let xy0 := cy * be0 + sy * be1
  let xy1 := (-sy) * be0 + cy * be1
  let xy_norm := ext.sqrtF (xy0 * xy0 + xy1 * xy1)
  ⟨(-rate) * (xy0 / xy_norm * Rxy - xy0),
   (-rate) * (xy1 / xy_norm * Rxy - xy1),
   (-rate) * (Rz - be2)⟩

/-- The source's NaN guard (sensors.c:400): `delta[i] == delta[i]` for all
three components, with IEEE equality. -/
def magGuard (d : V3) : Bool :=
  MFloat.feq d.x d.x && MFloat.feq d.y d.y && MFloat.feq d.z d.z

/-- The in-place bias removal at the top of `magOffsetEstimation`
(sensors.c:361-363): the measurement corrected by the current bias estimate. -/
def magCorrected (magBias mag : V3) : V3 :=
  ⟨mag.x - magBias.x, mag.y - magBias.y, mag.z - magBias.z⟩

/-- `magOffsetEstimation` (sensors.c:315, active `#else` branch): remove the
current bias estimate from the measurement in place, compute the correction,
and add it to the stored `MagBias` only when no component is NaN.  Returns the
mutated measurement and the new stored bias estimate. -/
def magOffsetEstimation (ext : ExtFuns) (cal : CalState) (env : SensorEnv)
    (magBias : V3) (mag : V3) : V3 × V3 :=
  let m1 : V3 := magCorrected magBias mag
  let d := magDelta ext cal env m1
  if magGuard d then
    (m1, ⟨magBias.x + d.x, magBias.y + d.y, magBias.z + d.z⟩)
  else
    (m1, magBias)

/-- The scaling, static-bias and rotation part of `update_mags`
(sensors.c:286-301). -/
def mags_calibrated (cal : CalState) (mag : RawMag) : V3 :=
  let mags : V3 :=
    ⟨mag.x * cal.mag_scale.x - cal.mag_bias.x,
     mag.y * cal.mag_scale.y - cal.mag_bias.y,
     mag.z * cal.mag_scale.z - cal.mag_bias.z⟩
  if cal.rotate then rot_mult cal.Rbs mags else mags

/-- `update_mags` (sensors.c:284): calibrate and rotate, then pass through the
offset estimator only when the nulling rate is positive.  Returns the
published magnetometer record and the (possibly updated) stored bias
estimate. -/
def update_mags (ext : ExtFuns) (cal : CalState) (env : SensorEnv)
    (magBias : V3) (mag : RawMag) : V3 × V3 :=
  let magData : V3 := mags_calibrated cal mag
  if MFloat.lt (MFloat.num 0) cal.magBiasNullingRate then
    magOffsetEstimation ext cal env magBias magData
  else
    (magData, magBias)

/-- The configuration records read by `settingsUpdatedCb`: `RevoCalibration`
(mag bias/scale), `InertialSensorSettings` (accel bias/scale, gyro scale),
`INSSettings` (nulling rate) and `AttitudeSettings` (board rotation triple and
the gyro-bias-correction toggle). -/
structure Settings where
  magBias : V3
  magScale : V3
  accelBias : V3
  accelScale : V3
  gyroScale : V3
  magBiasNullingRate : MFloat
  biasCorrectGyro : Bool
  boardRotation : V3
deriving DecidableEq, Repr

/-- Modelled from the spec: the composition `RPY2Quaternion` followed by
`Quaternion2R` (both in `CoordinateConversions.c`, not under `src/`), which
`settingsUpdatedCb` uses to rebuild `Rbs` from the roll/pitch/yaw triple. -/
structure RpyFun where
  rpy2R : V3 → Mat3

/-- `settingsUpdatedCb` (sensors.c:412): reload all calibration scalars into
the cached state — note the source loads the X component of `AccelScale` and
of `GyroScale` into all three axes — rebuild `Rbs`/`rotate` from the board
rotation triple (zero triple means no rotation), reload the
gyro-bias-correction toggle and the nulling rate, and zero the stored
`MagBias` (the prior estimate `oldMagBias` is read and every field of it is
overwritten).  Returns the new cached state and the new stored bias
estimate. -/
def settingsUpdatedCb (rpy : RpyFun) (s : Settings) (oldRbs : Mat3)
    (oldMagBias : V3) : CalState × V3 :=
  let mag_bias : V3 := ⟨s.magBias.x, s.magBias.y, s.magBias.z⟩
  let mag_scale : V3 := ⟨s.magScale.x, s.magScale.y, s.magScale.z⟩
  let accel_bias : V3 := ⟨s.accelBias.x, s.accelBias.y, s.accelBias.z⟩
  let accel_scale : V3 := ⟨s.accelScale.x, s.accelScale.x, s.accelScale.x⟩
  let gyro_scale : V3 := ⟨s.gyroScale.x, s.gyroScale.x, s.gyroScale.x⟩
  let magBiasOut : V3 := ⟨MFloat.num 0, MFloat.num 0, MFloat.num 0⟩
  let bias_correct_gyro := s.biasCorrectGyro
  let noRot := s.boardRotation.x = MFloat.num 0 ∧ s.boardRotation.y = MFloat.num 0 ∧
      s.boardRotation.z = MFloat.num 0
  let rotate := !(decide noRot)
  let Rbs :=
    if decide noRot then oldRbs
    else rpy.rpy2R ⟨s.boardRotation.x / MFloat.num 100,
                    s.boardRotation.y / MFloat.num 100,
                    s.boardRotation.z / MFloat.num 100⟩
  (⟨accel_bias, accel_scale, gyro_scale, mag_bias, mag_scale, Rbs, rotate,
    bias_correct_gyro, s.magBiasNullingRate⟩, magBiasOut)

/-- Outcome of `PIOS_SENSORS_GetQueue` plus `xQueueReceive` for one sensor:
the queue handle may be `NULL`, the receive may time out empty, or a sample
arrives. -/
inductive QueueRead (α : Type) : Type where
  | missing : QueueRead α
  | empty : QueueRead α
  | sample (a : α) : QueueRead α
deriving DecidableEq, Repr

/-- Whether a queue read failed (`queue == NULL || xQueueReceive(...) ==
errQUEUE_EMPTY` in the source). -/
def QueueRead.failed {α : Type} : QueueRead α → Bool
  | .missing => true
  | .empty => true
  | .sample _ => false

/-- Observable side effects of one iteration of the `SensorsTask` loop body:
watchdog signal, alarm set/clear, and the three optional publications. -/
structure CycleLog where
  wdgUpdated : Bool
  alarmCritical : Bool
  alarmCleared : Bool
  accelsPub : Option AccelsData
  gyrosPub : Option GyrosData
  magPub : Option V3
deriving DecidableEq, Repr

/-- Result of one iteration: the new fault flag, the new stored `MagBias`, and
the observable side effects. -/
structure CycleResult where
  error : Bool
  magBias : V3
  log : CycleLog
deriving DecidableEq, Repr

/-- One iteration of the `SensorsTask` main loop (sensors.c:172-212).
`error` is the fault flag carried over from the previous iteration; the three
`QueueRead`s are the outcomes of this iteration's queue polls.  On an
entering fault the watchdog is signalled and a critical alarm raised before
the flag is cleared; a failed gyro or accel read sets the flag and skips the
rest of the cycle, including the end-of-cycle watchdog signal; a failed mag
read is silently skipped. -/
def sensorsStep (ext : ExtFuns) (cal : CalState) (env : SensorEnv)
    (magBias : V3) (error : Bool)
    (gyroQ : QueueRead RawGyro) (accelQ : QueueRead RawAccel)
    (magQ : QueueRead RawMag) : CycleResult :=
  let wdgTop := error
  let alarmCritical := error
  let alarmCleared := !error
  match gyroQ with
  | .missing => ⟨true, magBias,
      ⟨wdgTop, alarmCritical, alarmCleared, none, none, none⟩⟩
  | .empty => ⟨true, magBias,
      ⟨wdgTop, alarmCritical, alarmCleared, none, none, none⟩⟩
  | .sample gyros =>
    match accelQ with
    | .missing => ⟨true, magBias,
        ⟨wdgTop, alarmCritical, alarmCleared, none, none, none⟩⟩
    | .empty => ⟨true, magBias,
        ⟨wdgTop, alarmCritical, alarmCleared, none, none, none⟩⟩
    | .sample accels =>
      let accelsData := update_accels cal accels
      let gyrosData := update_gyros cal env gyros
      match magQ with
      | .sample mag =>
        let r := update_mags ext cal env magBias mag
        ⟨false, r.2,
          ⟨true, alarmCritical, alarmCleared, some accelsData, some gyrosData,
           some r.1⟩⟩
      | _ => ⟨false, magBias,
          ⟨true, alarmCritical, alarmCleared, some accelsData, some gyrosData,
           none⟩⟩

/-! Concrete inputs used by the witness theorems below. -/

/-- The zero 3-vector. -/
def zeroV3 : V3 := ⟨MFloat.num 0, MFloat.num 0, MFloat.num 0⟩

/-- The identity rotation matrix. -/
def idMat3 : Mat3 :=
  ⟨⟨MFloat.num 1, MFloat.num 0, MFloat.num 0⟩,
   ⟨MFloat.num 0, MFloat.num 1, MFloat.num 0⟩,
   ⟨MFloat.num 0, MFloat.num 0, MFloat.num 1⟩⟩

/-- A concrete calibration state: non-trivial scales and biases, no rotation,
gyro bias correction off, nulling rate zero. -/
def calPlain : CalState :=
  ⟨⟨MFloat.num 1, MFloat.num 2, MFloat.num 3⟩,
   ⟨MFloat.num 2, MFloat.num 3, MFloat.num 4⟩,
   ⟨MFloat.num 5, MFloat.num 6, MFloat.num 7⟩,
   ⟨MFloat.num 1, MFloat.num 1, MFloat.num 2⟩,
   ⟨MFloat.num 2, MFloat.num 2, MFloat.num 3⟩,
   idMat3, false, false, MFloat.num 0⟩

/-- A concrete external environment: non-zero dynamic gyro bias, home field
(6,8,3), level attitude, zero yaw. -/
def envPlain : SensorEnv :=
  ⟨⟨MFloat.num 1, MFloat.num 2, MFloat.num 3⟩,
   ⟨MFloat.num 6, MFloat.num 8, MFloat.num 3⟩,
   ⟨MFloat.num 1, MFloat.num 0, MFloat.num 0, MFloat.num 0⟩,
   MFloat.num 0⟩

/-- External functions that are never consulted on the paths exercised. -/
def extInert : ExtFuns :=
  ⟨fun _ => MFloat.nan, fun _ => MFloat.nan, fun _ => MFloat.nan,
   MFloat.nan, fun _ => idMat3⟩

/-- A concrete raw gyro sample. -/
def gPlain : RawGyro := ⟨MFloat.num 10, MFloat.num 20, MFloat.num 30, MFloat.num 40⟩

/-- A concrete raw accel sample. -/
def aPlain : RawAccel := ⟨MFloat.num 5, MFloat.num 6, MFloat.num 7, MFloat.num 8⟩

/-- A concrete raw mag sample. -/
def magPlain : RawMag := ⟨MFloat.num 4, MFloat.num 5, MFloat.num 6⟩

/-- External functions for the C2 witness: exact square roots at the two
points consulted (100 and 25), cosine 1 and sine 0 everywhere, identity
attitude rotation. -/
def extC2 : ExtFuns :=
  ⟨fun a => if a = MFloat.num 100 then MFloat.num 10 else
      if a = MFloat.num 25 then MFloat.num 5 else MFloat.nan,
   fun _ => MFloat.num 1, fun _ => MFloat.num 0, MFloat.num 3,
   fun _ => idMat3⟩

/-- External functions for the C2 fixed-point witness: square root 10 at the
one point consulted (100). -/
def extC2f : ExtFuns :=
  ⟨fun a => if a = MFloat.num 100 then MFloat.num 10 else MFloat.nan,
   fun _ => MFloat.num 1, fun _ => MFloat.num 0, MFloat.num 3,
   fun _ => idMat3⟩

/-- Calibration state with nulling rate 1/2 for the C2 witness. -/
def calC2 : CalState := { calPlain with magBiasNullingRate := MFloat.num (1/2) }

/-- External functions that force a NaN correction: the square root is zero
everywhere, so the estimator divides by zero. -/
def extC4n : ExtFuns :=
  ⟨fun _ => MFloat.num 0, fun _ => MFloat.num 1, fun _ => MFloat.num 0,
   MFloat.num 3, fun _ => idMat3⟩

/-- External functions on which the estimator's correction is finite. -/
def extC4g : ExtFuns :=
  ⟨fun _ => MFloat.num 1, fun _ => MFloat.num 1, fun _ => MFloat.num 0,
   MFloat.num 3, fun _ => idMat3⟩

/-- A concrete stored bias estimate. -/
def bC4 : V3 := ⟨MFloat.num 1, MFloat.num 1, MFloat.num 1⟩

/-- A concrete calibrated mag measurement fed to the estimator. -/
def mC4 : V3 := ⟨MFloat.num 2, MFloat.num 3, MFloat.num 4⟩

/-- Settings exhibiting the per-axis scale loading: distinct per-axis
`AccelScale` and `GyroScale` values. -/
def settingsC3 : Settings :=
  ⟨⟨MFloat.num 7, MFloat.num 8, MFloat.num 9⟩,
   ⟨MFloat.num 1, MFloat.num 1, MFloat.num 1⟩,
   ⟨MFloat.num 0, MFloat.num 0, MFloat.num 0⟩,
   ⟨MFloat.num 1, MFloat.num 2, MFloat.num 3⟩,
   ⟨MFloat.num 4, MFloat.num 5, MFloat.num 6⟩,
   MFloat.num 0, false, zeroV3⟩

/-- Roll/pitch/yaw to rotation conversion used by the C3 evaluation (its
value is irrelevant there: the board rotation triple is zero). -/
def rpyC3 : RpyFun := ⟨fun _ => idMat3⟩

/-! Helper lemmas. -/

theorem MFloat.num_add (a b : ℚ) : num a + num b = num (a + b) := rfl

theorem MFloat.num_sub (a b : ℚ) : num a - num b = num (a - b) := rfl

theorem MFloat.num_mul (a b : ℚ) : num a * num b = num (a * b) := rfl

theorem MFloat.num_neg (a : ℚ) : -(num a) = num (-a) := rfl

theorem MFloat.num_div (a b : ℚ) (h : b ≠ 0) : num a / num b = num (a / b) := by
  show div (num a) (num b) = num (a / b)
  simp [div, h]

theorem MFloat.feq_num (a b : ℚ) : feq (num a) (num b) = decide (a = b) := rfl

theorem MFloat.lt_num (a b : ℚ) : lt (num a) (num b) = decide (a < b) := rfl

/-- Claim C1: for every raw accelerometer sample the published record is
`raw[i]*scale[i] - bias[i]` per axis, rotated by `Rbs` exactly when `rotate`
is set, with the temperature passed through unchanged; with `rotate` unset
each output axis is `raw[i]*scale[i] - bias[i]` for its own axis only (no
cross-axis mixing). -/
theorem update_accels_spec (cal : CalState) (a : RawAccel) :
    (update_accels cal a).temperature = a.temp ∧
    (cal.rotate = false →
      update_accels cal a =
        ⟨a.x * cal.accel_scale.x - cal.accel_bias.x,
         a.y * cal.accel_scale.y - cal.accel_bias.y,
         a.z * cal.accel_scale.z - cal.accel_bias.z,
         a.temp⟩) ∧
    (cal.rotate = true →
      update_accels cal a =
        ⟨(rot_mult cal.Rbs
            ⟨a.x * cal.accel_scale.x - cal.accel_bias.x,
             a.y * cal.accel_scale.y - cal.accel_bias.y,
             a.z * cal.accel_scale.z - cal.accel_bias.z⟩).x,
         (rot_mult cal.Rbs
            ⟨a.x * cal.accel_scale.x - cal.accel_bias.x,
             a.y * cal.accel_scale.y - cal.accel_bias.y,
             a.z * cal.accel_scale.z - cal.accel_bias.z⟩).y,
         (rot_mult cal.Rbs
            ⟨a.x * cal.accel_scale.x - cal.accel_bias.x,
             a.y * cal.accel_scale.y - cal.accel_bias.y,
             a.z * cal.accel_scale.z - cal.accel_bias.z⟩).z,
         a.temp⟩) := by
  unfold update_accels
  cases h : cal.rotate <;> simp [h]

/-- Witness for C1: both branches evaluated at concrete inputs. -/
theorem update_accels_spec_witness :
    update_accels calPlain aPlain =
      ⟨aPlain.x * calPlain.accel_scale.x - calPlain.accel_bias.x,
       aPlain.y * calPlain.accel_scale.y - calPlain.accel_bias.y,
       aPlain.z * calPlain.accel_scale.z - calPlain.accel_bias.z,
       aPlain.temp⟩ ∧
    update_accels { calPlain with rotate := true } aPlain =
      ⟨(rot_mult calPlain.Rbs
          ⟨aPlain.x * calPlain.accel_scale.x - calPlain.accel_bias.x,
           aPlain.y * calPlain.accel_scale.y - calPlain.accel_bias.y,
           aPlain.z * calPlain.accel_scale.z - calPlain.accel_bias.z⟩).x,
       (rot_mult calPlain.Rbs
          ⟨aPlain.x * calPlain.accel_scale.x - calPlain.accel_bias.x,
           aPlain.y * calPlain.accel_scale.y - calPlain.accel_bias.y,
           aPlain.z * calPlain.accel_scale.z - calPlain.accel_bias.z⟩).y,
       (rot_mult calPlain.Rbs
          ⟨aPlain.x * calPlain.accel_scale.x - calPlain.accel_bias.x,
           aPlain.y * calPlain.accel_scale.y - calPlain.accel_bias.y,
           aPlain.z * calPlain.accel_scale.z - calPlain.accel_bias.z⟩).z,
       aPlain.temp⟩ :=
  ⟨(update_accels_spec calPlain aPlain).2.1 rfl,
   (update_accels_spec { calPlain with rotate := true } aPlain).2.2 rfl⟩

/-- Claim C6: the dynamic gyro bias is subtracted from the scaled, rotated
value exactly when the bias-correction mode flag is enabled; with the flag
disabled the published gyro equals the rotated-scaled value; the temperature
is passed through. -/
theorem update_gyros_spec (cal : CalState) (env : SensorEnv) (g : RawGyro) :
    (update_gyros cal env g).temperature = g.temp ∧
    (cal.bias_correct_gyro = false →
      update_gyros cal env g =
        ⟨(gyros_rotated_scaled cal g).x,
         (gyros_rotated_scaled cal g).y,
         (gyros_rotated_scaled cal g).z, g.temp⟩) ∧
    (cal.bias_correct_gyro = true →
      update_gyros cal env g =
        ⟨(gyros_rotated_scaled cal g).x - env.gyrosBias.x,
         (gyros_rotated_scaled cal g).y - env.gyrosBias.y,
         (gyros_rotated_scaled cal g).z - env.gyrosBias.z, g.temp⟩) := by
  unfold update_gyros
  cases h : cal.bias_correct_gyro <;> simp [h]

/-- Witness for C6: both flag settings evaluated at concrete inputs. -/
theorem update_gyros_spec_witness :
    update_gyros calPlain envPlain gPlain =
      ⟨(gyros_rotated_scaled calPlain gPlain).x,
       (gyros_rotated_scaled calPlain gPlain).y,
       (gyros_rotated_scaled calPlain gPlain).z, gPlain.temp⟩ ∧
    update_gyros { calPlain with bias_correct_gyro := true } envPlain gPlain =
      ⟨(gyros_rotated_scaled { calPlain with bias_correct_gyro := true } gPlain).x -
         envPlain.gyrosBias.x,
       (gyros_rotated_scaled { calPlain with bias_correct_gyro := true } gPlain).y -
         envPlain.gyrosBias.y,
       (gyros_rotated_scaled { calPlain with bias_correct_gyro := true } gPlain).z -
         envPlain.gyrosBias.z, gPlain.temp⟩ :=
  ⟨(update_gyros_spec calPlain envPlain gPlain).2.1 rfl,
   (update_gyros_spec { calPlain with bias_correct_gyro := true } envPlain gPlain).2.2 rfl⟩

/-- Claim C7: the configuration-change callback sets all three components of
the stored `MagBiasEstimate` to exactly zero, regardless of its prior
value. -/
theorem settingsUpdatedCb_resets_magbias (rpy : RpyFun) (s : Settings)
    (oldRbs : Mat3) (oldMagBias : V3) :
    (settingsUpdatedCb rpy s oldRbs oldMagBias).2 =
      ⟨MFloat.num 0, MFloat.num 0, MFloat.num 0⟩ := rfl

/-- Claim C3 (code evaluated at the failing configuration): with per-axis
`AccelScale = (1,2,3)` and `GyroScale = (4,5,6)` the callback stores
`(1,1,1)` and `(4,4,4)` — the X component is copied into all three axes
(sensors.c:427-432 index `..._X` three times), while the biases are loaded
per-axis. -/
theorem settingsUpdatedCb_scale_copy :
    (settingsUpdatedCb rpyC3 settingsC3 idMat3 zeroV3).1.accel_scale =
      ⟨MFloat.num 1, MFloat.num 1, MFloat.num 1⟩ ∧
    (settingsUpdatedCb rpyC3 settingsC3 idMat3 zeroV3).1.gyro_scale =
      ⟨MFloat.num 4, MFloat.num 4, MFloat.num 4⟩ ∧
    settingsC3.accelScale = ⟨MFloat.num 1, MFloat.num 2, MFloat.num 3⟩ ∧
    settingsC3.gyroScale = ⟨MFloat.num 4, MFloat.num 5, MFloat.num 6⟩ ∧
    (settingsUpdatedCb rpyC3 settingsC3 idMat3 zeroV3).1.accel_bias =
      settingsC3.accelBias := by
  refine ⟨rfl, rfl, rfl, rfl, rfl⟩

/-- Claim C9: with a non-positive nulling rate, `update_mags` neither reads
nor mutates the stored bias estimate: for every stored estimate `b` the
published record is exactly the scaled, statically-bias-corrected, rotated
value (the adaptive estimate is not subtracted) and `b` is returned
unchanged. -/
theorem update_mags_rate_nonpos (ext : ExtFuns) (cal : CalState)
    (env : SensorEnv) (b : V3) (mag : RawMag) (r : ℚ)
    (hrate : cal.magBiasNullingRate = MFloat.num r) (hr : r ≤ 0) :
    update_mags ext cal env b mag = (mags_calibrated cal mag, b) := by
  unfold update_mags
  rw [hrate]
  simp [MFloat.lt_num, not_lt.mpr hr]

/-- Witness for C9: rate zero at concrete inputs. -/
theorem update_mags_rate_nonpos_witness :
    update_mags extInert calPlain envPlain
        ⟨MFloat.num 9, MFloat.num 9, MFloat.num 9⟩ magPlain =
      (mags_calibrated calPlain magPlain,
       ⟨MFloat.num 9, MFloat.num 9, MFloat.num 9⟩) :=
  update_mags_rate_nonpos extInert calPlain envPlain
    ⟨MFloat.num 9, MFloat.num 9, MFloat.num 9⟩ magPlain 0 rfl le_rfl

/-- The guard is false exactly when some correction component is NaN. -/
theorem magGuard_false_iff (d : V3) :
    magGuard d = false ↔
      (d.x = MFloat.nan ∨ d.y = MFloat.nan ∨ d.z = MFloat.nan) := by
  obtain ⟨x, y, z⟩ := d
  cases x <;> cases y <;> cases z <;> simp [magGuard, MFloat.feq]

/-- The guard is true exactly when no correction component is NaN. -/
theorem magGuard_true_iff (d : V3) :
    magGuard d = true ↔
      (d.x ≠ MFloat.nan ∧ d.y ≠ MFloat.nan ∧ d.z ≠ MFloat.nan) := by
  obtain ⟨x, y, z⟩ := d
  cases x <;> cases y <;> cases z <;> simp [magGuard, MFloat.feq]

/-- Claim C4: when any of the three computed correction components is NaN the
stored estimate is returned unchanged while the measurement is still the one
corrected by the pre-update bias; otherwise all three components are added to
the stored estimate. -/
theorem magOffsetEstimation_nan_discard (ext : ExtFuns) (cal : CalState)
    (env : SensorEnv) (b m : V3) :
    ((magDelta ext cal env (magCorrected b m)).x = MFloat.nan ∨
     (magDelta ext cal env (magCorrected b m)).y = MFloat.nan ∨
     (magDelta ext cal env (magCorrected b m)).z = MFloat.nan →
      magOffsetEstimation ext cal env b m = (magCorrected b m, b)) ∧
    ((magDelta ext cal env (magCorrected b m)).x ≠ MFloat.nan →
     (magDelta ext cal env (magCorrected b m)).y ≠ MFloat.nan →
     (magDelta ext cal env (magCorrected b m)).z ≠ MFloat.nan →
      magOffsetEstimation ext cal env b m =
        (magCorrected b m,
         ⟨b.x + (magDelta ext cal env (magCorrected b m)).x,
          b.y + (magDelta ext cal env (magCorrected b m)).y,
          b.z + (magDelta ext cal env (magCorrected b m)).z⟩)) := by
  constructor
  · intro h
    unfold magOffsetEstimation
    rw [if_neg]
    rw [Bool.not_eq_true, magGuard_false_iff]
    exact h
  · intro hx hy hz
    unfold magOffsetEstimation
    rw [if_pos]
    rw [magGuard_true_iff]
    exact ⟨hx, hy, hz⟩

/-- Witness for C4: a NaN correction (division by a zero square root) leaves
the estimate unchanged; a finite correction is added on all three axes. -/
theorem magOffsetEstimation_nan_discard_witness :
    magOffsetEstimation extC4n calPlain envPlain bC4 mC4 =
      (magCorrected bC4 mC4, bC4) ∧
    magOffsetEstimation extC4g calPlain envPlain bC4 mC4 =
      (magCorrected bC4 mC4,
       ⟨bC4.x + (magDelta extC4g calPlain envPlain (magCorrected bC4 mC4)).x,
        bC4.y + (magDelta extC4g calPlain envPlain (magCorrected bC4 mC4)).y,
        bC4.z + (magDelta extC4g calPlain envPlain (magCorrected bC4 mC4)).z⟩) :=
  ⟨(magOffsetEstimation_nan_discard extC4n calPlain envPlain bC4 mC4).1
      (Or.inl (by decide)),
   (magOffsetEstimation_nan_discard extC4g calPlain envPlain bC4 mC4).2
      (by decide) (by decide) (by decide)⟩

/-- Claim C8: with gyro and accel samples received but the mag queue missing
or empty, the accel and gyro records are published normally, no mag record is
published, the fault flag stays clear, the alarm is cleared and the watchdog
is signalled. -/
theorem sensorsStep_mag_absent (ext : ExtFuns) (cal : CalState)
    (env : SensorEnv) (b : V3) (g : RawGyro) (a : RawAccel)
    (magQ : QueueRead RawMag) (hm : magQ.failed = true) :
    sensorsStep ext cal env b false (.sample g) (.sample a) magQ =
      ⟨false, b,
       ⟨true, false, true, some (update_accels cal a),
        some (update_gyros cal env g), none⟩⟩ := by
  cases magQ with
  | missing => rfl
  | empty => rfl
  | sample m => exact absurd hm (by simp [QueueRead.failed])

/-- Witness for C8: empty mag queue at concrete inputs. -/
theorem sensorsStep_mag_absent_witness :
    sensorsStep extInert calPlain envPlain zeroV3 false (.sample gPlain)
        (.sample aPlain) .empty =
      ⟨false, zeroV3,
       ⟨true, false, true, some (update_accels calPlain aPlain),
        some (update_gyros calPlain envPlain gPlain), none⟩⟩ :=
  sensorsStep_mag_absent extInert calPlain envPlain zeroV3 gPlain aPlain
    .empty rfl

/-- Claim C10: when the gyro sample is received but the accel read then fails,
the already-dequeued gyro sample is discarded: nothing is published this
cycle (in particular no gyro record), and the fault flag is set. -/
theorem sensorsStep_accel_fail_drops_gyro (ext : ExtFuns) (cal : CalState)
    (env : SensorEnv) (b : V3) (g : RawGyro) (accelQ : QueueRead RawAccel)
    (ha : accelQ.failed = true) (magQ : QueueRead RawMag) :
    sensorsStep ext cal env b false (.sample g) accelQ magQ =
      ⟨true, b, ⟨false, false, true, none, none, none⟩⟩ := by
  cases accelQ with
  | missing => rfl
  | empty => rfl
  | sample a => exact absurd ha (by simp [QueueRead.failed])

/-- Witness for C10: empty accel queue at concrete inputs. -/
theorem sensorsStep_accel_fail_drops_gyro_witness :
    sensorsStep extInert calPlain envPlain zeroV3 false (.sample gPlain)
        .empty .missing =
      ⟨true, zeroV3, ⟨false, false, true, none, none, none⟩⟩ :=
  sensorsStep_accel_fail_drops_gyro extInert calPlain envPlain zeroV3 gPlain
    .empty rfl .missing

/-- Claim C5: a cycle whose gyro queue is missing or empty sets the fault
flag and is skipped — nothing is processed or published, the watchdog is not
signalled and no alarm is raised that cycle; the immediately following cycle
(entered with the fault flag set) raises the critical alarm, still signals
the watchdog, and clears the flag before proceeding (its resulting flag is
clear whenever its own gyro and accel reads succeed). -/
theorem sensorsStep_gyro_unavailable (ext : ExtFuns) (cal : CalState)
    (env : SensorEnv) (b b2 : V3) (gyroQ : QueueRead RawGyro)
    (hg : gyroQ.failed = true) (accelQ : QueueRead RawAccel)
    (magQ : QueueRead RawMag) (gq2 : QueueRead RawGyro)
    (aq2 : QueueRead RawAccel) (mq2 : QueueRead RawMag) :
    sensorsStep ext cal env b false gyroQ accelQ magQ =
      ⟨true, b, ⟨false, false, true, none, none, none⟩⟩ ∧
    (sensorsStep ext cal env b2 true gq2 aq2 mq2).log.alarmCritical = true ∧
    (sensorsStep ext cal env b2 true gq2 aq2 mq2).log.wdgUpdated = true ∧
    (gq2.failed = false → aq2.failed = false →
      (sensorsStep ext cal env b2 true gq2 aq2 mq2).error = false) := by
  refine ⟨?_, ?_, ?_, ?_⟩
  · cases gyroQ with
    | missing => rfl
    | empty => rfl
    | sample g => exact absurd hg (by simp [QueueRead.failed])
  · cases gq2 <;> cases aq2 <;> cases mq2 <;> rfl
  · cases gq2 <;> cases aq2 <;> cases mq2 <;> rfl
  · intro h2 h3
    cases gq2 with
    | missing => exact absurd h2 (by simp [QueueRead.failed])
    | empty => exact absurd h2 (by simp [QueueRead.failed])
    | sample g =>
      cases aq2 with
      | missing => exact absurd h3 (by simp [QueueRead.failed])
      | empty => exact absurd h3 (by simp [QueueRead.failed])
      | sample a => cases mq2 <;> rfl

/-- Witness for C5: failing first cycle and recovering second cycle at
concrete inputs. -/
theorem sensorsStep_gyro_unavailable_witness :
    sensorsStep extInert calPlain envPlain zeroV3 false .empty .missing
        .missing =
      ⟨true, zeroV3, ⟨false, false, true, none, none, none⟩⟩ ∧
    (sensorsStep extInert calPlain envPlain zeroV3 true (.sample gPlain)
        (.sample aPlain) .empty).log.alarmCritical = true ∧
    (sensorsStep extInert calPlain envPlain zeroV3 true (.sample gPlain)
        (.sample aPlain) .empty).log.wdgUpdated = true ∧
    (sensorsStep extInert calPlain envPlain zeroV3 true (.sample gPlain)
        (.sample aPlain) .empty).error = false := by
  obtain ⟨h1, h2, h3, h4⟩ := sensorsStep_gyro_unavailable extInert calPlain
    envPlain zeroV3 zeroV3 .empty rfl .missing .missing (.sample gPlain)
    (.sample aPlain) .empty
  exact ⟨h1, h2, h3, h4 rfl rfl⟩

/-- Under a level attitude (identity rotation), zero-yaw trigonometry and
exact square roots, the correction computed by the estimator on the
bias-corrected measurement `(u,v,w)` is
`(r*u*(n-rxy)/n, r*v*(n-rxy)/n, r*(w-hz))`. -/
theorem magDelta_ident (ext : ExtFuns) (cal : CalState) (env : SensorEnv)
    (r rxy n hx hy hz u v w : ℚ)
    (hrate : cal.magBiasNullingRate = MFloat.num r)
    (hbe : env.homeBe = ⟨MFloat.num hx, MFloat.num hy, MFloat.num hz⟩)
    (hq : ext.quat2R env.attQ = idMat3)
    (hcy : ext.cosF (env.attYaw * ext.piF / MFloat.num 180) = MFloat.num 1)
    (hsy : ext.sinF (env.attYaw * ext.piF / MFloat.num 180) = MFloat.num 0)
    (hRxy : ext.sqrtF (MFloat.num (hx * hx + hy * hy)) = MFloat.num rxy)
    (hn : ext.sqrtF (MFloat.num (u * u + v * v)) = MFloat.num n)
    (hn0 : n ≠ 0) :
    magDelta ext cal env ⟨MFloat.num u, MFloat.num v, MFloat.num w⟩ =
      ⟨MFloat.num (r * u * (n - rxy) / n),
       MFloat.num (r * v * (n - rxy) / n),
       MFloat.num (r * (w - hz))⟩ := by
  have hdiv : ∀ a : ℚ, MFloat.num a / MFloat.num n = MFloat.num (a / n) :=
    fun a => MFloat.num_div a n hn0
  simp only [magDelta, hbe, hq, hcy, hsy, hrate, idMat3,
    MFloat.num_mul, MFloat.num_add, MFloat.num_neg,
    one_mul, zero_mul, mul_zero, mul_one, add_zero, zero_add, neg_zero,
    hRxy, hn, hdiv, MFloat.num_sub, V3.mk.injEq, MFloat.num.injEq]
  refine ⟨by field_simp; ring, by field_simp; ring, by ring⟩

/-- Claim C2: for a stationary level attitude and reference field, one
estimator update moves the bias estimate so that the residual horizontal
field keeps its direction and its magnitude discrepancy against `Rxy`
contracts by the factor `1 - rate` (monotone for `0 < rate ≤ 1`), the
vertical discrepancy against `Rz` contracts identically, and when the
measured horizontal magnitude equals `Rxy` and the vertical component equals
`Rz` the correction is zero: the bias estimate is a fixed point. -/
theorem magOffsetEstimation_contract (ext : ExtFuns) (cal : CalState)
    (env : SensorEnv) (r rxy n hx hy hz mx my mz b1 b2 b3 : ℚ)
    (hrate : cal.magBiasNullingRate = MFloat.num r)
    (hr0 : 0 < r) (hr1 : r ≤ 1)
    (hbe : env.homeBe = ⟨MFloat.num hx, MFloat.num hy, MFloat.num hz⟩)
    (hq : ext.quat2R env.attQ = idMat3)
    (hcy : ext.cosF (env.attYaw * ext.piF / MFloat.num 180) = MFloat.num 1)
    (hsy : ext.sinF (env.attYaw * ext.piF / MFloat.num 180) = MFloat.num 0)
    (hRxy : ext.sqrtF (MFloat.num (hx * hx + hy * hy)) = MFloat.num rxy)
    (hrxy0 : 0 ≤ rxy)
    (hn : ext.sqrtF
        (MFloat.num ((mx - b1) * (mx - b1) + (my - b2) * (my - b2))) =
      MFloat.num n)
    (hn0 : 0 < n) :
    magOffsetEstimation ext cal env
        ⟨MFloat.num b1, MFloat.num b2, MFloat.num b3⟩
        ⟨MFloat.num mx, MFloat.num my, MFloat.num mz⟩ =
      (⟨MFloat.num (mx - b1), MFloat.num (my - b2), MFloat.num (mz - b3)⟩,
       ⟨MFloat.num (b1 + r * (mx - b1) * (n - rxy) / n),
        MFloat.num (b2 + r * (my - b2) * (n - rxy) / n),
        MFloat.num (b3 + r * (mz - b3 - hz))⟩) ∧
    mx - (b1 + r * (mx - b1) * (n - rxy) / n) =
      ((1 - r) * n + r * rxy) / n * (mx - b1) ∧
    my - (b2 + r * (my - b2) * (n - rxy) / n) =
      ((1 - r) * n + r * rxy) / n * (my - b2) ∧
    0 ≤ (1 - r) * n + r * rxy ∧
    |(1 - r) * n + r * rxy - rxy| ≤ |n - rxy| ∧
    |mz - (b3 + r * (mz - b3 - hz)) - hz| ≤ |mz - b3 - hz| ∧
    (n = rxy → mz - b3 = hz →
      magOffsetEstimation ext cal env
          ⟨MFloat.num b1, MFloat.num b2, MFloat.num b3⟩
          ⟨MFloat.num mx, MFloat.num my, MFloat.num mz⟩ =
        (⟨MFloat.num (mx - b1), MFloat.num (my - b2), MFloat.num (mz - b3)⟩,
         ⟨MFloat.num b1, MFloat.num b2, MFloat.num b3⟩)) := by
  have hm1 : magCorrected ⟨MFloat.num b1, MFloat.num b2, MFloat.num b3⟩
      ⟨MFloat.num mx, MFloat.num my, MFloat.num mz⟩ =
      ⟨MFloat.num (mx - b1), MFloat.num (my - b2), MFloat.num (mz - b3)⟩ := by
    simp [magCorrected, MFloat.num_sub]
  have hd := magDelta_ident ext cal env r rxy n hx hy hz
    (mx - b1) (my - b2) (mz - b3) hrate hbe hq hcy hsy hRxy hn (ne_of_gt hn0)
  have main : magOffsetEstimation ext cal env
      ⟨MFloat.num b1, MFloat.num b2, MFloat.num b3⟩
      ⟨MFloat.num mx, MFloat.num my, MFloat.num mz⟩ =
      (⟨MFloat.num (mx - b1), MFloat.num (my - b2), MFloat.num (mz - b3)⟩,
       ⟨MFloat.num (b1 + r * (mx - b1) * (n - rxy) / n),
        MFloat.num (b2 + r * (my - b2) * (n - rxy) / n),
        MFloat.num (b3 + r * (mz - b3 - hz))⟩) := by
    simp only [magOffsetEstimation, hm1, hd]
    have hg : magGuard ⟨MFloat.num (r * (mx - b1) * (n - rxy) / n),
        MFloat.num (r * (my - b2) * (n - rxy) / n),
        MFloat.num (r * (mz - b3 - hz))⟩ = true := by
      simp [magGuard, MFloat.feq_num]
    rw [if_pos hg]
    simp only [MFloat.num_add]
  have habs : ∀ e : ℚ, |(1 - r) * e| ≤ |e| := by
    intro e
    rw [abs_mul, abs_of_nonneg (by linarith : (0:ℚ) ≤ 1 - r)]
    calc (1 - r) * |e| ≤ 1 * |e| :=
          mul_le_mul_of_nonneg_right (by linarith) (abs_nonneg e)
      _ = |e| := one_mul _
  refine ⟨main, by field_simp; ring, by field_simp; ring, ?_, ?_, ?_, ?_⟩
  · exact add_nonneg (mul_nonneg (by linarith) hn0.le)
      (mul_nonneg hr0.le hrxy0)
  · have h : (1 - r) * n + r * rxy - rxy = (1 - r) * (n - rxy) := by ring
    rw [h]
    exact habs _
  · have h : mz - (b3 + r * (mz - b3 - hz)) - hz = (1 - r) * (mz - b3 - hz) := by
      ring
    rw [h]
    exact habs _
  · intro h1 h2
    rw [main]
    subst h1
    simp only [Prod.mk.injEq, V3.mk.injEq, MFloat.num.injEq]
    refine ⟨trivial, by ring, by ring, by linear_combination r * h2⟩

/-- Witness for C2: a contracting update and a fixed-point update at
concrete inputs. -/
theorem magOffsetEstimation_contract_witness :
    magOffsetEstimation extC2 calC2 envPlain
        ⟨MFloat.num 0, MFloat.num 0, MFloat.num 0⟩
        ⟨MFloat.num 3, MFloat.num 4, MFloat.num 3⟩ =
      (⟨MFloat.num (3 - 0), MFloat.num (4 - 0), MFloat.num (3 - 0)⟩,
       ⟨MFloat.num (0 + 1/2 * (3 - 0) * (5 - 10) / 5),
        MFloat.num (0 + 1/2 * (4 - 0) * (5 - 10) / 5),
        MFloat.num (0 + 1/2 * (3 - 0 - 3))⟩) ∧
    magOffsetEstimation extC2f calC2 envPlain
        ⟨MFloat.num 0, MFloat.num 0, MFloat.num 0⟩
        ⟨MFloat.num 6, MFloat.num 8, MFloat.num 3⟩ =
      (⟨MFloat.num (6 - 0), MFloat.num (8 - 0), MFloat.num (3 - 0)⟩,
       ⟨MFloat.num 0, MFloat.num 0, MFloat.num 0⟩) :=
  ⟨(magOffsetEstimation_contract extC2 calC2 envPlain (1/2) 10 5 6 8 3 3 4 3
      0 0 0 rfl (by norm_num) (by norm_num) rfl rfl rfl rfl
      (by norm_num [extC2]) (by norm_num) (by norm_num [extC2])
      (by norm_num)).1,
   (magOffsetEstimation_contract extC2f calC2 envPlain (1/2) 10 10 6 8 3 6 8 3
      0 0 0 rfl (by norm_num) (by norm_num) rfl rfl rfl rfl
      (by norm_num [extC2f]) (by norm_num) (by norm_num [extC2f])
      (by norm_num)).2.2.2.2.2.2 rfl (by norm_num)⟩
